import Mathlib

/-!
Verification development for the MVCC point-lookup read path
(`storage/mvcc/reader/point_getter.rs`): a `PointGetter` resolves a user key
at a timestamp against a snapshot holding a write-index column family and a
default (value-store) column family.

Shallow embedding conventions:
* User keys are modelled as an abstract linearly ordered type (`Nat`); the
  spec treats them as opaque ordered byte sequences.
* A versioned key (`user_key + encoded timestamp`) is `EncodedKey.versioned`;
  the ordering places versions of one key contiguously and newest-first,
  which is the invariant the physical encoding provides.  Malformed encoded
  keys (on which `truncate_ts` fails) are `EncodedKey.malformed`.
* The engine cursor is an external collaborator (its code is not part of the
  core).  Modelled from the spec: `near_seek(versioned_key)` positions the
  cursor at the first entry at-or-after the target; `next` on an already
  exhausted cursor is a no-op; cursor construction does not fail, so
  engine-level failures have no representation in the model.
* The lock-check collaborator `load_and_check_lock` is likewise external; the
  model takes it as a parameter (`LockCheck`) that either returns an adjusted
  timestamp or fails.
-/

abbrev Key := Nat

abbrev Value := List Nat

/-- Encoded key stored in the write column family: a user key with an encoded
timestamp suffix, or a malformed blob that cannot be decoded. -/
inductive EncodedKey where
  | versioned (user_key : Key) (commit_ts : Nat)
  | malformed (blob : Nat)
deriving DecidableEq

/-- MVCC error kinds surfaced by the read path. -/
inductive MvccError where
  | keyIsLocked (lock_ts : Nat)
  | badFormatKey
  | badFormatWrite
  | defaultNotFound
deriving DecidableEq

/-- `Key::append_ts`: attach a timestamp suffix, producing a versioned key. -/
def append_ts (k : Key) (ts : Nat) : EncodedKey :=
  EncodedKey.versioned k ts

/-- `Key::truncate_ts`: recover the user key from a versioned key; fails on a
malformed encoded key. -/
def EncodedKey.truncate_ts : EncodedKey → Except MvccError Key
  | EncodedKey.versioned user_key _ => Except.ok user_key
  | EncodedKey.malformed _ => Except.error MvccError.badFormatKey

/-- Physical ordering of encoded keys: versions of one user key sort
contiguously, newest (largest timestamp) first; user keys sort by their own
order.  Malformed blobs are placed after all well-formed keys. -/
def EncodedKey.le : EncodedKey → EncodedKey → Bool
  | EncodedKey.versioned k t, EncodedKey.versioned k2 t2 =>
      decide (k < k2) || (k == k2 && decide (t2 ≤ t))
  | EncodedKey.versioned _ _, EncodedKey.malformed _ => true
  | EncodedKey.malformed _, EncodedKey.versioned _ _ => false
  | EncodedKey.malformed b, EncodedKey.malformed b2 => decide (b ≤ b2)

/-- `WriteType`: tag of a record in the write column family. -/
inductive WriteType where
  | Put
  | Delete
  | Lock
  | Rollback
deriving DecidableEq

/-- `Write`: a parsed write record — its type tag, the start timestamp of the
transaction that produced it (addressing the value store), and an optional
inlined short value. -/
structure Write where
  write_type : WriteType
  start_ts : Nat
  short_value : Option Value
deriving DecidableEq

/-- Raw bytes stored as the value of a write-index entry: either bytes that
parse into a `Write`, or garbage on which `Write::parse` fails. -/
inductive WriteBytes where
  | parsable (w : Write)
  | garbage (blob : Nat)
deriving DecidableEq

/-- `Write::parse`. -/
def WriteBytes.parse : WriteBytes → Except MvccError Write
  | WriteBytes.parsable w => Except.ok w
  | WriteBytes.garbage _ => Except.error MvccError.badFormatWrite

/-- One entry of the write column family. -/
structure WriteEntry where
  key : EncodedKey
  value : WriteBytes
deriving DecidableEq

/-- A read-only snapshot: the write column family (sorted by `EncodedKey.le`,
newest version of each key first) and the default column family, addressed by
`(user_key, start_ts)`. -/
structure Snapshot where
  writeCF : List WriteEntry
  defaultCF : List ((Key × Nat) × Value)
deriving DecidableEq

/-- Per-column-family counters of the statistics accumulator. -/
structure CfStatistics where
  processed : Nat
  seekCnt : Nat
  nextCnt : Nat
deriving DecidableEq

def CfStatistics.zero : CfStatistics := ⟨0, 0, 0⟩

/-- `Statistics`: the mutable accumulator owned by the reader. -/
structure Statistics where
  lockCf : CfStatistics
  write : CfStatistics
  data : CfStatistics
deriving DecidableEq

def Statistics.zero : Statistics := ⟨CfStatistics.zero, CfStatistics.zero, CfStatistics.zero⟩

def Statistics.bumpWriteSeek (s : Statistics) : Statistics :=
  { s with write := { s.write with seekCnt := s.write.seekCnt + 1 } }

def Statistics.bumpWriteNext (s : Statistics) : Statistics :=
  { s with write := { s.write with nextCnt := s.write.nextCnt + 1 } }

def Statistics.bumpWriteProcessed (s : Statistics) : Statistics :=
  { s with write := { s.write with processed := s.write.processed + 1 } }

def Statistics.bumpDataSeek (s : Statistics) : Statistics :=
  { s with data := { s.data with seekCnt := s.data.seekCnt + 1 } }

/-- `IsolationLevel` (from the protobuf enum): strict snapshot isolation or
read-committed-like. -/
inductive IsolationLevel where
  | SI
  | RC
deriving DecidableEq

/-- `PointGetter`: reader state. `write_cursor` and `default_cursor` are
positions into the corresponding column family (the list length denotes an
exhausted / not-yet-positioned cursor). -/
structure PointGetter where
  snapshot : Snapshot
  multi : Bool
  fill_cache : Bool
  omit_value : Bool
  isolation_level : IsolationLevel
  statistics : Statistics
  read_once : Bool
  write_cursor : Nat
  default_cursor : Option Nat
deriving DecidableEq

/-- `PointGetterBuilder`. -/
structure PointGetterBuilder where
  snapshot : Snapshot
  multi : Bool
  fill_cache : Bool
  omit_value : Bool
  isolation_level : IsolationLevel
deriving DecidableEq

def PointGetterBuilder.new (snapshot : Snapshot) : PointGetterBuilder :=
  ⟨snapshot, true, true, false, IsolationLevel.SI⟩

def PointGetterBuilder.setMulti (b : PointGetterBuilder) (m : Bool) : PointGetterBuilder :=
  { b with multi := m }

def PointGetterBuilder.setFillCache (b : PointGetterBuilder) (f : Bool) : PointGetterBuilder :=
  { b with fill_cache := f }

def PointGetterBuilder.setOmitValue (b : PointGetterBuilder) (o : Bool) : PointGetterBuilder :=
  { b with omit_value := o }

def PointGetterBuilder.setIsolationLevel (b : PointGetterBuilder) (l : IsolationLevel) : PointGetterBuilder :=
  { b with isolation_level := l }

/-- `PointGetterBuilder::build`: the write cursor is created eagerly (fresh,
not yet positioned — represented by the past-the-end index), the default
cursor lazily.  Engine-level cursor construction is modelled as infallible
(see the header comment). -/
def PointGetterBuilder.build (b : PointGetterBuilder) : PointGetter :=
  { snapshot := b.snapshot
    multi := b.multi
    fill_cache := b.fill_cache
    omit_value := b.omit_value
    isolation_level := b.isolation_level
    statistics := Statistics.zero
    read_once := false
    write_cursor := b.snapshot.writeCF.length
    default_cursor := none }

/-- `PointGetter::take_statistics`: `mem::replace` the accumulator with a
fresh zero-valued one and return the old contents. -/
def PointGetter.take_statistics (g : PointGetter) : Statistics × PointGetter :=
  (g.statistics, { g with statistics := Statistics.zero })

/-- Outcome of a `read_next` call: a recoverable result (`ok`/`err`) or the
process abort raised by the `panic!` on single-use misuse. -/
inductive ReadResult where
  | ok (v : Option Value)
  | err (e : MvccError)
  | abort
deriving DecidableEq

/-- The lock-check collaborator `util::load_and_check_lock`, taken as a
parameter: it returns a (possibly adjusted) timestamp or fails. -/
abbrev LockCheck := Snapshot → Key → Nat → Except MvccError Nat

/-- Modelled from the spec: `near_seek` positions the cursor at the first
entry at-or-after the target in the physical order. -/
def Snapshot.seekIdx (snap : Snapshot) (target : EncodedKey) : Nat :=
  snap.writeCF.findIdx (fun e => EncodedKey.le target e.key)

/-- Modelled from the spec: seek position of `load_data_by_write` into the
default column family (the entry addressed by the user key and the write
record's start timestamp; past-the-end if absent). -/
def Snapshot.defaultSeekIdx (snap : Snapshot) (key : Key) (w : Write) : Nat :=
  snap.defaultCF.findIdx (fun p => p.1.1 == key && p.1.2 == w.start_ts)

/-- Modelled from the spec: the value-fetch collaborator
`util::load_data_by_write` resolves a Put record lacking an inlined value
into its payload from the value-store region; a missing expected entry is a
corruption-class error. -/
def Snapshot.load_data_by_write (snap : Snapshot) (key : Key) (w : Write) :
    Except MvccError Value :=
  match snap.defaultCF.find? (fun p => p.1.1 == key && p.1.2 == w.start_ts) with
  | some p => Except.ok p.2
  | none => Except.error MvccError.defaultNotFound

/-- `PointGetter::ensure_default_cursor`: create the default cursor if it does
not exist (fresh, not yet positioned), otherwise keep it. -/
def ensure_default_cursor (snap : Snapshot) (dc : Option Nat) : Option Nat :=
  match dc with
  | some c => some c
  | none => some snap.defaultCF.length

/-- Mutable state threaded through the version-walk loop: write cursor
position, statistics, default cursor. -/
structure WalkState where
  pos : Nat
  statistics : Statistics
  default_cursor : Option Nat
deriving DecidableEq

/-- The `loop` of `PointGetter::read_next`, over the suffix of the write
column family the cursor still has in front of it (kept in sync with
`WalkState.pos`).  Faithful to the source, including the cursor advance after
parsing each entry (line 184) and the second advance at the bottom of the
loop for Lock/Rollback entries (line 215). -/
def read_next_loop (snap : Snapshot) (key : Key) (omitVal : Bool) :
    List WriteEntry → WalkState → ReadResult × WalkState
  | [], st =>
    -- Key space ended: cursor no longer valid.
    (ReadResult.ok none, st)
  | entry :: rest, st =>
    match EncodedKey.truncate_ts entry.key with
    | Except.error e => (ReadResult.err e, st)
    | Except.ok user_key =>
      if user_key = key then
        match WriteBytes.parse entry.value with
        | Except.error e => (ReadResult.err e, st)
        | Except.ok w =>
          -- statistics.write.processed += 1; write_cursor.next(..)  (line 184)
          let st1 : WalkState :=
            { st with
              statistics := Statistics.bumpWriteNext (Statistics.bumpWriteProcessed st.statistics)
              pos := st.pos + 1 }
          match w.write_type with
          | WriteType.Put =>
            if omitVal then (ReadResult.ok (some []), st1)
            else
              match w.short_value with
              | some v => (ReadResult.ok (some v), st1)
              | none =>
                let st2 : WalkState :=
                  { st1 with default_cursor := ensure_default_cursor snap st1.default_cursor }
                let st3 : WalkState :=
                  { st2 with
                    default_cursor := some (snap.defaultSeekIdx key w)
                    statistics := Statistics.bumpDataSeek st2.statistics }
                match snap.load_data_by_write key w with
                | Except.error e => (ReadResult.err e, st3)
                | Except.ok v => (ReadResult.ok (some v), st3)
          | WriteType.Delete => (ReadResult.ok none, st1)
          | WriteType.Lock | WriteType.Rollback =>
            -- Continue with the next write; write_cursor.next(..)  (line 215)
            match rest with
            | [] =>
              (ReadResult.ok none, { st1 with statistics := Statistics.bumpWriteNext st1.statistics })
            | _ :: rest2 =>
              read_next_loop snap key omitVal rest2
                { st1 with
                  pos := st1.pos + 1
                  statistics := Statistics.bumpWriteNext st1.statistics }
      else
        -- Moved to another user key.
        (ReadResult.ok none, st)

/-- The lock-check step at the top of `read_next`: performed only under SI. -/
def lockStep (lc : LockCheck) (g : PointGetter) (key : Key) (ts : Nat) :
    Except MvccError Nat :=
  if g.isolation_level = IsolationLevel.SI then lc g.snapshot key ts
  else Except.ok ts

/-- The part of `read_next` after the one-shot guard and the lock check:
near-seek to `key + ts2` and run the version walk. -/
def read_next_with_ts (g1 : PointGetter) (key : Key) (ts2 : Nat) :
    ReadResult × PointGetter :=
  let startPos := g1.snapshot.seekIdx (append_ts key ts2)
  let g2 : PointGetter :=
    { g1 with
      write_cursor := startPos
      statistics := Statistics.bumpWriteSeek g1.statistics }
  let r := read_next_loop g2.snapshot key g2.omit_value
    (g2.snapshot.writeCF.drop startPos)
    ⟨startPos, g2.statistics, g2.default_cursor⟩
  (r.1,
   { g2 with
     write_cursor := r.2.pos
     statistics := r.2.statistics
     default_cursor := r.2.default_cursor })

/-- `PointGetter::read_next`: one-shot guard, set `read_once`, lock check
under SI, then seek and version walk. -/
def PointGetter.read_next (lc : LockCheck) (g : PointGetter) (key : Key) (ts : Nat) :
    ReadResult × PointGetter :=
  if !g.multi && g.read_once then (ReadResult.abort, g)
  else
    let g1 : PointGetter := { g with read_once := true }
    match lockStep lc g1 key ts with
    | Except.error e => (ReadResult.err e, g1)
    | Except.ok ts2 => read_next_with_ts g1 key ts2

/-- Specification-side definition, following the spec's words: the write
record of the latest committed version (Put or Delete) of `key` at or below
`ts`, in a write column family listed newest-first.  Lock and Rollback
records are bookkeeping, not committed versions. -/
def latestCommitted (cf : List WriteEntry) (key : Key) (ts : Nat) : Option Write :=
  cf.findSome? fun e =>
    match e.key, WriteBytes.parse e.value with
    | EncodedKey.versioned k t, Except.ok w =>
      if k = key ∧ t ≤ ts ∧ (w.write_type = WriteType.Put ∨ w.write_type = WriteType.Delete)
      then some w else none
    | _, _ => none

/-- A lock-check collaborator that finds no conflicting lock and keeps the
caller's timestamp. -/
def lcNoLock : LockCheck := fun _ _ ts => Except.ok ts

/-- A lock-check collaborator that always reports a conflicting lock. -/
def lcConflict : LockCheck := fun _ _ _ => Except.error (MvccError.keyIsLocked 1)

/-- Write column family holding only `Put@8` (short value `[118]`) for key 1. -/
def snapPutOnly : Snapshot :=
  ⟨[⟨EncodedKey.versioned 1 8, WriteBytes.parsable ⟨WriteType.Put, 7, some [118]⟩⟩], []⟩

/-- Same as `snapPutOnly` with a `Rollback@10` record inserted between the
Put and the query timestamp 10. -/
def snapRollbackPut : Snapshot :=
  ⟨[⟨EncodedKey.versioned 1 10, WriteBytes.parsable ⟨WriteType.Rollback, 10, none⟩⟩,
    ⟨EncodedKey.versioned 1 8, WriteBytes.parsable ⟨WriteType.Put, 7, some [118]⟩⟩], []⟩

/-- `Lock@10` then `Put@8` (short value `[118]`) for key 1. -/
def snapLockPut : Snapshot :=
  ⟨[⟨EncodedKey.versioned 1 10, WriteBytes.parsable ⟨WriteType.Lock, 9, none⟩⟩,
    ⟨EncodedKey.versioned 1 8, WriteBytes.parsable ⟨WriteType.Put, 7, some [118]⟩⟩], []⟩

/-- `Rollback@12`, `Delete@10`, `Put@5` (short value `[118]`) for key 1. -/
def snapRollbackDeletePut : Snapshot :=
  ⟨[⟨EncodedKey.versioned 1 12, WriteBytes.parsable ⟨WriteType.Rollback, 12, none⟩⟩,
    ⟨EncodedKey.versioned 1 10, WriteBytes.parsable ⟨WriteType.Delete, 9, none⟩⟩,
    ⟨EncodedKey.versioned 1 5, WriteBytes.parsable ⟨WriteType.Put, 4, some [118]⟩⟩], []⟩

/-- A multi-use SI reader over `snapPutOnly`. -/
def gSIex : PointGetter := PointGetterBuilder.build (PointGetterBuilder.new snapPutOnly)

/-- A multi-use RC reader over `snapPutOnly`. -/
def gRCex : PointGetter :=
  PointGetterBuilder.build
    (PointGetterBuilder.setIsolationLevel (PointGetterBuilder.new snapPutOnly) IsolationLevel.RC)

/-- A single-use (`multi = false`) SI reader over `snapPutOnly`. -/
def gSingle : PointGetter :=
  PointGetterBuilder.build (PointGetterBuilder.setMulti (PointGetterBuilder.new snapPutOnly) false)

/-- A reader over a write column family whose only entry has a malformed
encoded key, so `truncate_ts` fails on it. -/
def badKeyGetter : PointGetter :=
  PointGetterBuilder.build (PointGetterBuilder.new
    ⟨[⟨EncodedKey.malformed 0, WriteBytes.parsable ⟨WriteType.Put, 0, some []⟩⟩], []⟩)

/-- A reader over a write column family whose entry for key 1 holds bytes on
which `Write::parse` fails. -/
def badWriteGetter : PointGetter :=
  PointGetterBuilder.build (PointGetterBuilder.new
    ⟨[⟨EncodedKey.versioned 1 5, WriteBytes.garbage 0⟩], []⟩)

/-- A reader over a Put record without an inlined value whose expected
value-store entry is missing. -/
def missingDefaultGetter : PointGetter :=
  PointGetterBuilder.build (PointGetterBuilder.new
    ⟨[⟨EncodedKey.versioned 1 5, WriteBytes.parsable ⟨WriteType.Put, 4, none⟩⟩], []⟩)

/-- The version-walk loop never produces the abort outcome. -/
theorem read_next_loop_fst_ne_abort (snap : Snapshot) (key : Key) (ov : Bool) :
    ∀ (l : List WriteEntry) (st : WalkState),
      (read_next_loop snap key ov l st).1 ≠ ReadResult.abort := by
  intro l st
  induction l, st using read_next_loop.induct snap key ov with
  | _ => simp_all [read_next_loop]

/-- The result component of the version-walk loop does not depend on the
incoming walk state (cursor position bookkeeping, statistics, default
cursor). -/
theorem read_next_loop_fst_indep (snap : Snapshot) (key : Key) (ov : Bool) :
    ∀ (l : List WriteEntry) (st sb : WalkState),
      (read_next_loop snap key ov l st).1 = (read_next_loop snap key ov l sb).1 := by
  intro l st sb
  induction l, st using read_next_loop.induct snap key ov generalizing sb <;>
    simp_all [read_next_loop] <;> (rename_i ih; exact ih _)

/-- The one-shot guard condition is false unless the reader is single-use and
already used. -/
theorem guard_false_of (g : PointGetter) (h : ¬(g.multi = false ∧ g.read_once = true)) :
    (!g.multi && g.read_once) = false := by
  cases hm : g.multi <;> cases ho : g.read_once <;> simp_all

/-- The seek-and-walk tail of `read_next` only rewrites the cursor positions
and the statistics of the reader state. -/
theorem read_next_with_ts_snd_fields (ga : PointGetter) (key : Key) (ts2 : Nat) :
    (read_next_with_ts ga key ts2).2.multi = ga.multi ∧
    (read_next_with_ts ga key ts2).2.read_once = ga.read_once ∧
    (read_next_with_ts ga key ts2).2.snapshot = ga.snapshot ∧
    (read_next_with_ts ga key ts2).2.omit_value = ga.omit_value ∧
    (read_next_with_ts ga key ts2).2.isolation_level = ga.isolation_level ∧
    (read_next_with_ts ga key ts2).2.fill_cache = ga.fill_cache := by
  simp [read_next_with_ts]

/-- The result of the seek-and-walk tail depends on the reader state only
through the snapshot and the value-omission flag. -/
theorem read_next_with_ts_fst_congr (ga gb : PointGetter) (key : Key) (ts2 : Nat)
    (hs : ga.snapshot = gb.snapshot) (ho : ga.omit_value = gb.omit_value) :
    (read_next_with_ts ga key ts2).1 = (read_next_with_ts gb key ts2).1 := by
  unfold read_next_with_ts
  simp only [hs, ho]
  exact read_next_loop_fst_indep _ _ _ _ _ _

/-- `read_next` never produces the abort outcome unless the one-shot guard
trips. -/
theorem read_next_fst_ne_abort (lc : LockCheck) (g : PointGetter) (key : Key) (ts : Nat)
    (h : ¬(g.multi = false ∧ g.read_once = true)) :
    (PointGetter.read_next lc g key ts).1 ≠ ReadResult.abort := by
  unfold PointGetter.read_next
  rw [guard_false_of g h]
  simp only [Bool.false_eq_true, if_false]
  cases h2 : lockStep lc { g with read_once := true } key ts with
  | error e => simp [h2]
  | ok ts2 =>
    simp only [h2]
    unfold read_next_with_ts
    exact read_next_loop_fst_ne_abort _ _ _ _ _

/-- When the guard does not trip, `read_next` marks the reader as used and
leaves the snapshot and the configuration fields unchanged. -/
theorem read_next_snd_fields (lc : LockCheck) (g : PointGetter) (key : Key) (ts : Nat)
    (h : ¬(g.multi = false ∧ g.read_once = true)) :
    (PointGetter.read_next lc g key ts).2.read_once = true ∧
    (PointGetter.read_next lc g key ts).2.multi = g.multi ∧
    (PointGetter.read_next lc g key ts).2.snapshot = g.snapshot ∧
    (PointGetter.read_next lc g key ts).2.omit_value = g.omit_value ∧
    (PointGetter.read_next lc g key ts).2.isolation_level = g.isolation_level := by
  unfold PointGetter.read_next
  rw [guard_false_of g h]
  simp only [Bool.false_eq_true, if_false]
  cases h2 : lockStep lc { g with read_once := true } key ts with
  | error e => simp [h2]
  | ok ts2 => simp [h2, read_next_with_ts]

/-- Under SI, a lock-check failure is returned as-is, with `read_once`
already set. -/
theorem read_next_lock_error (lc : LockCheck) (g : PointGetter) (key : Key) (ts : Nat)
    (h : ¬(g.multi = false ∧ g.read_once = true))
    (hsi : g.isolation_level = IsolationLevel.SI)
    (e : MvccError) (hlc : lc g.snapshot key ts = Except.error e) :
    PointGetter.read_next lc g key ts = (ReadResult.err e, { g with read_once := true }) := by
  unfold PointGetter.read_next
  rw [guard_false_of g h]
  simp only [Bool.false_eq_true, if_false]
  have hls : lockStep lc { g with read_once := true } key ts = Except.error e := by
    unfold lockStep
    simp [hsi, hlc]
  simp [hls]

/-- On a single-use reader that has already served a call, `read_next`
aborts immediately and touches nothing. -/
theorem read_next_abort_of (lc : LockCheck) (g : PointGetter) (key : Key) (ts : Nat)
    (hm : g.multi = false) (ho : g.read_once = true) :
    PointGetter.read_next lc g key ts = (ReadResult.abort, g) := by
  have hc : (!g.multi && g.read_once) = true := by
    rw [hm, ho]
    rfl
  unfold PointGetter.read_next
  rw [hc]
  simp

/-- C9: `take_statistics` returns the accumulated statistics, replaces the
accumulator with a fresh zero-valued one, and leaves every other field of the
reader — the snapshot, the configuration flags, the one-shot guard, the write
cursor and the optional default cursor — unchanged. -/
theorem take_statistics_frame (g : PointGetter) :
    (PointGetter.take_statistics g).1 = g.statistics ∧
    (PointGetter.take_statistics g).2.statistics = Statistics.zero ∧
    (PointGetter.take_statistics g).2.snapshot = g.snapshot ∧
    (PointGetter.take_statistics g).2.multi = g.multi ∧
    (PointGetter.take_statistics g).2.fill_cache = g.fill_cache ∧
    (PointGetter.take_statistics g).2.omit_value = g.omit_value ∧
    (PointGetter.take_statistics g).2.isolation_level = g.isolation_level ∧
    (PointGetter.take_statistics g).2.read_once = g.read_once ∧
    (PointGetter.take_statistics g).2.write_cursor = g.write_cursor ∧
    (PointGetter.take_statistics g).2.default_cursor = g.default_cursor := by
  simp [PointGetter.take_statistics]

/-- C1: the claim (and the spec) say Lock/Rollback records are skipped
transparently and the write cursor is advanced exactly once per inspected
entry in every branch.  The code advances the cursor twice for a
Lock/Rollback entry (once after parsing, once at the bottom of the loop), so
inserting a single Rollback between a Put and the query timestamp flips the
result from the Put's value to "not found", and the one inspected entry
moves the cursor by two positions (seek lands at index 0; after the walk the
cursor is at index 2 with exactly one processed entry and two next calls). -/
theorem read_next_double_advance_bug :
    (PointGetter.read_next lcNoLock
        (PointGetterBuilder.build (PointGetterBuilder.new snapPutOnly)) 1 10).1
      = ReadResult.ok (some [118]) ∧
    (PointGetter.read_next lcNoLock
        (PointGetterBuilder.build (PointGetterBuilder.new snapRollbackPut)) 1 10).1
      = ReadResult.ok none ∧
    (PointGetter.read_next lcNoLock
        (PointGetterBuilder.build (PointGetterBuilder.new snapRollbackPut)) 1 10).2.write_cursor
      = 2 ∧
    (PointGetter.read_next lcNoLock
        (PointGetterBuilder.build (PointGetterBuilder.new snapRollbackPut))
          1 10).2.statistics.write.processed = 1 ∧
    (PointGetter.read_next lcNoLock
        (PointGetterBuilder.build (PointGetterBuilder.new snapRollbackPut))
          1 10).2.statistics.write.nextCnt = 2 := by
  decide

/-- C2: for key 1 at timestamp 10 the latest committed version at or below 10
is `Put` with value `[118]` (a Lock record sits above it), yet `read_next`
returns "not found": the double cursor advance on the Lock entry skips the
Put record. -/
theorem read_next_put_value_bug :
    latestCommitted snapLockPut.writeCF 1 10 = some ⟨WriteType.Put, 7, some [118]⟩ ∧
    (PointGetter.read_next lcNoLock
        (PointGetterBuilder.build (PointGetterBuilder.new snapLockPut)) 1 10).1
      = ReadResult.ok none := by
  decide

/-- C3: for key 1 at timestamp 12 the latest committed version at or below 12
is a `Delete` (a Rollback record sits above it), yet `read_next` returns the
value of the older `Put@5`: the double cursor advance on the Rollback entry
skips the Delete record. -/
theorem read_next_delete_bug :
    latestCommitted snapRollbackDeletePut.writeCF 1 12 = some ⟨WriteType.Delete, 9, none⟩ ∧
    (PointGetter.read_next lcNoLock
        (PointGetterBuilder.build (PointGetterBuilder.new snapRollbackDeletePut)) 1 12).1
      = ReadResult.ok (some [118]) := by
  decide

/-- C4: on a reader built with `multi = false`, the first `read_next` call
never aborts (it returns a recoverable result), and a second call — with any
key, timestamp and lock collaborator — aborts. -/
theorem read_next_single_use_contract (lc lc2 : LockCheck) (snap : Snapshot)
    (key key2 : Key) (ts ts2 : Nat) :
    (PointGetter.read_next lc
        (PointGetterBuilder.build (PointGetterBuilder.setMulti (PointGetterBuilder.new snap) false))
        key ts).1 ≠ ReadResult.abort ∧
    (PointGetter.read_next lc2
        (PointGetter.read_next lc
          (PointGetterBuilder.build (PointGetterBuilder.setMulti (PointGetterBuilder.new snap) false))
          key ts).2 key2 ts2).1 = ReadResult.abort := by
  have hg : ¬((PointGetterBuilder.build (PointGetterBuilder.setMulti (PointGetterBuilder.new snap) false)).multi = false ∧
      (PointGetterBuilder.build (PointGetterBuilder.setMulti (PointGetterBuilder.new snap) false)).read_once = true) := by
    simp [PointGetterBuilder.build, PointGetterBuilder.setMulti, PointGetterBuilder.new]
  refine ⟨read_next_fst_ne_abort _ _ _ _ hg, ?_⟩
  have hfields := read_next_snd_fields lc
    (PointGetterBuilder.build (PointGetterBuilder.setMulti (PointGetterBuilder.new snap) false)) key ts hg
  have hmulti : (PointGetter.read_next lc
      (PointGetterBuilder.build (PointGetterBuilder.setMulti (PointGetterBuilder.new snap) false))
      key ts).2.multi = false := by
    rw [hfields.2.1]
    simp [PointGetterBuilder.build, PointGetterBuilder.setMulti, PointGetterBuilder.new]
  rw [read_next_abort_of lc2 _ key2 ts2 hmulti hfields.1]

/-- C5: the lock check is performed if and only if the isolation level is SI.
Under any other level the lock collaborator is never consulted (the call's
outcome is the same for every collaborator and equals the plain seek-and-walk
at the caller's timestamp); under SI a collaborator failure is propagated
as-is and a returned timestamp is adopted for the rest of the call. -/
theorem read_next_lock_check_iff_si (lc lc2 : LockCheck) (g : PointGetter)
    (key : Key) (ts : Nat) :
    (g.isolation_level ≠ IsolationLevel.SI →
      PointGetter.read_next lc g key ts = PointGetter.read_next lc2 g key ts) ∧
    (g.isolation_level ≠ IsolationLevel.SI → ¬(g.multi = false ∧ g.read_once = true) →
      PointGetter.read_next lc g key ts = read_next_with_ts { g with read_once := true } key ts) ∧
    (g.isolation_level = IsolationLevel.SI → ¬(g.multi = false ∧ g.read_once = true) →
      ∀ e, lc g.snapshot key ts = Except.error e →
        PointGetter.read_next lc g key ts = (ReadResult.err e, { g with read_once := true })) ∧
    (g.isolation_level = IsolationLevel.SI → ¬(g.multi = false ∧ g.read_once = true) →
      ∀ ts2, lc g.snapshot key ts = Except.ok ts2 →
        PointGetter.read_next lc g key ts = read_next_with_ts { g with read_once := true } key ts2) := by
  refine ⟨?_, ?_, ?_, ?_⟩
  · intro hns
    unfold PointGetter.read_next lockStep
    simp [hns]
  · intro hns hguard
    unfold PointGetter.read_next lockStep
    rw [guard_false_of g hguard]
    simp [hns]
  · intro hsi hguard e hlc
    exact read_next_lock_error lc g key ts hguard hsi e hlc
  · intro hsi hguard ts2 hlc
    unfold PointGetter.read_next
    rw [guard_false_of g hguard]
    have hls : lockStep lc { g with read_once := true } key ts = Except.ok ts2 := by
      unfold lockStep
      simp [hsi, hlc]
    simp [hls]

/-- C5 witness: under RC the conflict-reporting collaborator and the no-lock
collaborator give identical calls; under SI a conflict is surfaced and a
returned timestamp is adopted. -/
theorem read_next_lock_check_iff_si_witness :
    PointGetter.read_next lcConflict gRCex 1 10 = PointGetter.read_next lcNoLock gRCex 1 10 ∧
    PointGetter.read_next lcConflict gSIex 1 10
      = (ReadResult.err (MvccError.keyIsLocked 1), { gSIex with read_once := true }) ∧
    PointGetter.read_next lcNoLock gSIex 1 10
      = read_next_with_ts { gSIex with read_once := true } 1 10 := by
  refine ⟨(read_next_lock_check_iff_si lcConflict lcNoLock gRCex 1 10).1 (by decide),
    (read_next_lock_check_iff_si lcConflict lcConflict gSIex 1 10).2.2.1 (by decide) (by decide)
      (MvccError.keyIsLocked 1) rfl,
    (read_next_lock_check_iff_si lcNoLock lcNoLock gSIex 1 10).2.2.2 (by decide) (by decide)
      10 rfl⟩

/-- C6: if no write-index entry carries the requested user key, `read_next`
returns "not found" (provided the call is not a single-use misuse and the
lock check passes); and, in general, the version walk stops with "not found"
as soon as the cursor is exhausted or the current entry's user key differs
from the requested one. -/
theorem read_next_missing_key_not_found (lc : LockCheck) (g : PointGetter) (key : Key) (ts : Nat)
    (hguard : ¬(g.multi = false ∧ g.read_once = true))
    (hlock : g.isolation_level = IsolationLevel.SI →
      ∃ ts2, lc g.snapshot key ts = Except.ok ts2)
    (hkeys : ∀ e ∈ g.snapshot.writeCF,
      ∃ k2 t2, e.key = EncodedKey.versioned k2 t2 ∧ k2 ≠ key) :
    (PointGetter.read_next lc g key ts).1 = ReadResult.ok none ∧
    (∀ (snap : Snapshot) (k2 : Key) (ov : Bool) (st : WalkState),
      (read_next_loop snap k2 ov [] st).1 = ReadResult.ok none) ∧
    (∀ (snap : Snapshot) (k2 u : Key) (ov : Bool) (entry : WriteEntry)
        (rest : List WriteEntry) (st : WalkState),
      EncodedKey.truncate_ts entry.key = Except.ok u → u ≠ k2 →
      (read_next_loop snap k2 ov (entry :: rest) st).1 = ReadResult.ok none) := by
  have hexit : ∀ (st : WalkState) (l : List WriteEntry),
      (∀ e ∈ l, ∃ k2 t2, e.key = EncodedKey.versioned k2 t2 ∧ k2 ≠ key) →
      (read_next_loop g.snapshot key g.omit_value l st).1 = ReadResult.ok none := by
    intro st l hl
    cases l with
    | nil => simp [read_next_loop]
    | cons entry rest =>
      obtain ⟨k2, t2, hk, hne⟩ := hl entry (List.mem_cons_self _ _)
      simp [read_next_loop, hk, EncodedKey.truncate_ts, hne]
  refine ⟨?_, ?_, ?_⟩
  · unfold PointGetter.read_next
    rw [guard_false_of g hguard]
    simp only [Bool.false_eq_true, if_false]
    have hls : ∃ ts2, lockStep lc { g with read_once := true } key ts = Except.ok ts2 := by
      unfold lockStep
      by_cases hsi : g.isolation_level = IsolationLevel.SI
      · obtain ⟨ts2, h2⟩ := hlock hsi
        exact ⟨ts2, by simp [hsi, h2]⟩
      · exact ⟨ts, by simp [hsi]⟩
    obtain ⟨ts2, hls⟩ := hls
    simp only [hls]
    unfold read_next_with_ts
    exact hexit _ _ (fun e he => hkeys e (List.drop_subset _ _ he))
  · intro snap k2 ov st
    simp [read_next_loop]
  · intro snap k2 u ov entry rest st htr hne
    simp [read_next_loop, htr, hne]

/-- C6 witness: key 2 has no write records in `snapPutOnly` (whose only entry
is for key 1), so the lookup at timestamp 10 returns "not found". -/
theorem read_next_missing_key_not_found_witness :
    (PointGetter.read_next lcNoLock gSIex 2 10).1 = ReadResult.ok none := by
  refine (read_next_missing_key_not_found lcNoLock gSIex 2 10 (by decide)
    (fun _ => ⟨10, rfl⟩) ?_).1
  intro e he
  simp only [gSIex, PointGetterBuilder.build, PointGetterBuilder.new, snapPutOnly,
    List.mem_singleton] at he
  subst he
  exact ⟨1, 8, rfl, by decide⟩

/-- The result of `read_next` depends on the reader state only through the
one-shot guard, the snapshot, the value-omission flag and the isolation
level. -/
theorem read_next_fst_congr (lc : LockCheck) (ga gb : PointGetter) (key : Key) (ts : Nat)
    (h1 : ¬(ga.multi = false ∧ ga.read_once = true))
    (h2 : ¬(gb.multi = false ∧ gb.read_once = true))
    (hs : ga.snapshot = gb.snapshot) (ho : ga.omit_value = gb.omit_value)
    (hi : ga.isolation_level = gb.isolation_level) :
    (PointGetter.read_next lc ga key ts).1 = (PointGetter.read_next lc gb key ts).1 := by
  unfold PointGetter.read_next
  rw [guard_false_of ga h1, guard_false_of gb h2]
  simp only [Bool.false_eq_true, if_false]
  have hls : lockStep lc { ga with read_once := true } key ts
      = lockStep lc { gb with read_once := true } key ts := by
    unfold lockStep
    have h3 : ({ ga with read_once := true } : PointGetter).isolation_level
        = ({ gb with read_once := true } : PointGetter).isolation_level := hi
    have h4 : ({ ga with read_once := true } : PointGetter).snapshot
        = ({ gb with read_once := true } : PointGetter).snapshot := hs
    rw [h3, h4]
  rw [hls]
  cases h5 : lockStep lc { gb with read_once := true } key ts with
  | error e => simp [h5]
  | ok ts2 =>
    simp only [h5]
    exact read_next_with_ts_fst_congr _ _ key ts2 hs ho

/-- C7: on a multi-use reader, a second `read_next` with the same key and
timestamp against the same snapshot returns the same result as the first. -/
theorem read_next_multi_idempotent (lc : LockCheck) (g : PointGetter) (key : Key) (ts : Nat)
    (hm : g.multi = true) :
    (PointGetter.read_next lc (PointGetter.read_next lc g key ts).2 key ts).1 =
      (PointGetter.read_next lc g key ts).1 := by
  have hguard : ¬(g.multi = false ∧ g.read_once = true) := by simp [hm]
  have hf := read_next_snd_fields lc g key ts hguard
  have hguard2 : ¬((PointGetter.read_next lc g key ts).2.multi = false ∧
      (PointGetter.read_next lc g key ts).2.read_once = true) := by
    rw [hf.2.1, hm]
    simp
  exact read_next_fst_congr lc _ g key ts hguard2 hguard hf.2.2.1 hf.2.2.2.1 hf.2.2.2.2

/-- C7 witness: two consecutive lookups of key 1 at timestamp 10 on the
multi-use reader over `snapPutOnly` agree. -/
theorem read_next_multi_idempotent_witness :
    gSIex.multi = true ∧
    (PointGetter.read_next lcNoLock (PointGetter.read_next lcNoLock gSIex 1 10).2 1 10).1 =
      (PointGetter.read_next lcNoLock gSIex 1 10).1 :=
  ⟨by decide, read_next_multi_idempotent lcNoLock gSIex 1 10 (by decide)⟩

/-- C8: outside the single-use misuse case `read_next` never aborts; an error
outcome is never the "not found" outcome; a lock conflict reported by the
collaborator under SI is returned as a recoverable error; and a malformed
versioned key, an unparsable write record and a missing value-store entry
each surface as recoverable errors. -/
theorem read_next_error_propagation (lc : LockCheck) (g : PointGetter) (key : Key) (ts : Nat)
    (hguard : ¬(g.multi = false ∧ g.read_once = true)) :
    (PointGetter.read_next lc g key ts).1 ≠ ReadResult.abort ∧
    (∀ e : MvccError, ReadResult.err e ≠ ReadResult.ok none) ∧
    (g.isolation_level = IsolationLevel.SI →
      ∀ e, lc g.snapshot key ts = Except.error e →
        (PointGetter.read_next lc g key ts).1 = ReadResult.err e) ∧
    (PointGetter.read_next lcNoLock badKeyGetter 1 10).1 = ReadResult.err MvccError.badFormatKey ∧
    (PointGetter.read_next lcNoLock badWriteGetter 1 10).1 = ReadResult.err MvccError.badFormatWrite ∧
    (PointGetter.read_next lcNoLock missingDefaultGetter 1 10).1
      = ReadResult.err MvccError.defaultNotFound := by
  refine ⟨read_next_fst_ne_abort lc g key ts hguard, ?_, ?_, by decide, by decide, by decide⟩
  · intro e h
    exact ReadResult.noConfusion h
  · intro hsi e hlc
    rw [read_next_lock_error lc g key ts hguard hsi e hlc]

/-- C8 witness: a fresh SI reader propagates the collaborator's conflict as a
recoverable error, not an abort. -/
theorem read_next_error_propagation_witness :
    (PointGetter.read_next lcConflict gSIex 1 10).1 ≠ ReadResult.abort ∧
    (PointGetter.read_next lcConflict gSIex 1 10).1 = ReadResult.err (MvccError.keyIsLocked 1) :=
  ⟨(read_next_error_propagation lcConflict gSIex 1 10 (by decide)).1,
   (read_next_error_propagation lcConflict gSIex 1 10 (by decide)).2.2.1 (by decide)
     (MvccError.keyIsLocked 1) rfl⟩

/-- C10: `read_next` marks the reader as used on every non-aborting call,
whatever the outcome; on a multi-use reader the flag never causes an abort;
on a fresh single-use reader the second call always aborts, whichever result
(including errors and "not found") the first call produced. -/
theorem read_next_sets_read_once (lc : LockCheck) (g : PointGetter) (key : Key) (ts : Nat) :
    (¬(g.multi = false ∧ g.read_once = true) →
      (PointGetter.read_next lc g key ts).2.read_once = true) ∧
    (g.multi = true → (PointGetter.read_next lc g key ts).1 ≠ ReadResult.abort) ∧
    (g.multi = false → g.read_once = false →
      ∀ (lc2 : LockCheck) (key2 : Key) (ts2 : Nat),
        (PointGetter.read_next lc2 (PointGetter.read_next lc g key ts).2 key2 ts2).1
          = ReadResult.abort) := by
  refine ⟨?_, ?_, ?_⟩
  · intro h
    exact (read_next_snd_fields lc g key ts h).1
  · intro hm
    exact read_next_fst_ne_abort lc g key ts (by simp [hm])
  · intro hm ho lc2 key2 ts2
    have hguard : ¬(g.multi = false ∧ g.read_once = true) := by simp [ho]
    have hf := read_next_snd_fields lc g key ts hguard
    have hmulti : (PointGetter.read_next lc g key ts).2.multi = false := by
      rw [hf.2.1, hm]
    rw [read_next_abort_of lc2 _ key2 ts2 hmulti hf.1]

/-- C10 witness: a single-use reader whose first call failed with a lock
conflict still aborts on the second call — the guard flag was set before the
lock check. -/
theorem read_next_sets_read_once_witness :
    (PointGetter.read_next lcConflict gSingle 1 10).2.read_once = true ∧
    (PointGetter.read_next lcConflict (PointGetter.read_next lcConflict gSingle 1 10).2 2 11).1
      = ReadResult.abort :=
  ⟨(read_next_sets_read_once lcConflict gSingle 1 10).1 (by decide),
   (read_next_sets_read_once lcConflict gSingle 1 10).2.2 (by decide) (by decide) lcConflict 2 11⟩
